import Mathlib

/-!
Verification of `read_p1.py` (digital meter P1 reader).

A shallow embedding, faithful to `src/read_p1.py`, of the telegram
framing / CRC validation / OBIS line decoding / aggregation / snapshot
publication pipeline, together with theorems settling the frozen claims.

Modelling conventions:
* Python byte strings and text strings are both modelled as `String` /
  `List Char`; the program only ever handles ASCII data (a non-ASCII byte
  would raise `UnicodeDecodeError`, which the main loop's bare `except`
  turns into a no-op for that telegram, the same effect our model gives
  to every per-telegram fault).
* Functions that can raise return `Except PyErr _`.
* Python `float` values are modelled as exact decimal numbers
  (`Dec`, a mantissa/scale pair).  IEEE-754 rounding is not modelled; no
  claim's verdict depends on it, and all concrete values used below are
  preserved exactly by binary floating point as well.
* `int(s, 16)`'s tolerance for underscores between digits, and
  `float(s)`'s acceptance of `inf`/`nan`/underscores, are not modelled;
  no claim involves such inputs.
* `str.strip()` is modelled over the common ASCII whitespace characters;
  Python additionally strips `\x1c`-`\x1f`, `\x85` and Unicode spaces,
  which never occur in the meter's ASCII output and which no claim's
  verdict depends on (a non-whitespace byte such as `'!'` survives
  stripping either way).
-/

set_option maxRecDepth 30000

/-- The exceptions `read_p1.py` can raise in the modelled fragment. -/
inductive PyErr where
  | valueError (s : String)
  | nameError (s : String)
  | indexError
  | typeError
deriving DecidableEq, Repr

deriving instance DecidableEq for Except

/-! ## Generic Python-semantics helpers (executable, structural) -/

/-- Python `needle in hay` for strings: substring containment. -/
def containsSub (needle : List Char) : List Char → Bool
  | [] => needle.isEmpty
  | c :: rest => needle.isPrefixOf (c :: rest) || containsSub needle rest

/-- One step of `str.split(sep)` (Python semantics, non-overlapping,
left to right); `fuel` bounds the recursion (`len + 1` always suffices). -/
def pySplitAux (sep : List Char) : Nat → List Char → List Char → List (List Char)
  | 0, cur, _ => [cur.reverse]
  | fuel + 1, cur, l =>
    if sep.isPrefixOf l then
      cur.reverse :: pySplitAux sep fuel [] (l.drop sep.length)
    else
      match l with
      | [] => [cur.reverse]
      | c :: rest => pySplitAux sep fuel (c :: cur) rest

/-- Python `s.split(sep)` for a non-empty separator. -/
def pySplit (l sep : List Char) : List (List Char) :=
  pySplitAux sep (l.length + 1) [] l

/-- The characters Python's `str.strip()` removes (ASCII whitespace). -/
def isPySpace (c : Char) : Bool :=
  c = ' ' || c = '\t' || c = '\n' || c = '\x0d' || c = '\x0b' || c = '\x0c'

/-- Python `str.strip()`. -/
def pyStrip (l : List Char) : List Char :=
  ((l.dropWhile isPySpace).reverse.dropWhile isPySpace).reverse

/-- Python `dict` lookup on an insertion-ordered association list. -/
def lookupA {α : Type} : List (String × α) → String → Option α
  | [], _ => none
  | (k, v) :: rest, key => if k = key then some v else lookupA rest key

/-- Python `dict` assignment `m[k] = v`: update in place if the key is
present (keeping its position), else append. -/
def upsert {α : Type} (m : List (String × α)) (k : String) (v : α) :
    List (String × α) :=
  if m.any (fun p => decide (p.1 = k)) then
    m.map (fun p => if p.1 = k then (k, v) else p)
  else
    m ++ [(k, v)]

def isDigitCh (c : Char) : Bool := '0' ≤ c && c ≤ '9'

def isHexDigitCh (c : Char) : Bool :=
  isDigitCh c || ('a' ≤ c && c ≤ 'f') || ('A' ≤ c && c ≤ 'F')

/-- Numeric value of a (hex) digit character. -/
def digitVal (c : Char) : Nat :=
  if isDigitCh c then c.toNat - '0'.toNat
  else if 'a' ≤ c && c ≤ 'f' then c.toNat - 'a'.toNat + 10
  else if 'A' ≤ c && c ≤ 'F' then c.toNat - 'A'.toNat + 10
  else 0

/-- Value of a most-significant-digit-first digit string in base `b`. -/
def digitsVal (b : Nat) (l : List Char) : Nat :=
  l.foldl (fun a c => a * b + digitVal c) 0

/-- Digits (MSD first) of `n` in base `b`, via the fuel pattern so that
the kernel can evaluate it (`fuel = n + 1` suffices). -/
def natDigitsAux (b : Nat) : Nat → Nat → List Char
  | 0, _ => []
  | fuel + 1, n => if n < b then [Nat.digitChar n]
                   else natDigitsAux b fuel (n / b) ++ [Nat.digitChar (n % b)]

def natDigits (b n : Nat) : List Char := natDigitsAux b (n + 1) n

/-- Python `str(i)` for an `int`. -/
def pyIntRepr (n : Int) : String :=
  String.mk ((if n < 0 then ['-'] else []) ++ natDigits 10 n.natAbs)

/-- Python `hex(i)`: sign, `0x`, lower-case hex digits. -/
def pyHex (n : Int) : String :=
  String.mk ((if n < 0 then ['-'] else []) ++ '0' :: 'x' :: natDigits 16 n.natAbs)

/-- The sign a leading `'-'` denotes. -/
def signOf (t : List Char) : Int := match t with | '-' :: _ => -1 | _ => 1

/-- Drop one leading `'+'`/`'-'`. -/
def stripSign : List Char → List Char
  | '+' :: r => r
  | '-' :: r => r
  | t => t

/-- Drop one leading `0x`/`0X`. -/
def strip0x : List Char → List Char
  | '0' :: 'x' :: r => r
  | '0' :: 'X' :: r => r
  | t => t

/-- Python `int(s, 16)`: optional surrounding whitespace, optional sign,
optional `0x`/`0X` prefix, then at least one hex digit. -/
def pyIntBase16 (l : List Char) : Except PyErr Int :=
  let t := pyStrip l
  let t2 := strip0x (stripSign t)
  if !t2.isEmpty && t2.all isHexDigitCh then
    .ok (signOf t * (digitsVal 16 t2 : Nat))
  else
    .error (.valueError "int16")

/-! ## Exact decimal numbers standing in for Python floats -/

/-- The pair `⟨m, e⟩` denotes `m / 10 ^ e`. -/
structure Dec where
  m : Int
  e : Nat
deriving DecidableEq, Repr

/-- Addition of two Python floats (exact decimal model). -/
def Dec.add (a b : Dec) : Dec :=
  let e := max a.e b.e
  ⟨a.m * (10 : Int) ^ (e - a.e) + b.m * (10 : Int) ^ (e - b.e), e⟩

/-- Python `float(s)`: optional whitespace and sign, decimal mantissa
with optional fraction, optional exponent.  A failing parse raises
`ValueError`, exactly like `float()`. -/
def pyFloat (l : List Char) : Except PyErr Dec :=
  let t := pyStrip l
  let sgn : Int := signOf t
  let t1 := stripSign t
  let intPart := t1.takeWhile isDigitCh
  let r1 := t1.dropWhile isDigitCh
  let (fracPart, r2) :=
    match r1 with
    | '.' :: r => (r.takeWhile isDigitCh, r.dropWhile isDigitCh)
    | _ => ([], r1)
  if intPart.isEmpty && fracPart.isEmpty then .error (.valueError "float")
  else
    let m0 : Int := sgn * (digitsVal 10 (intPart ++ fracPart) : Nat)
    let e0 : Nat := fracPart.length
    match r2 with
    | [] => .ok ⟨m0, e0⟩
    | e :: r3 =>
      if e = 'e' || e = 'E' then
        let esgn : Int := signOf r3
        let r4 := stripSign r3
        if !r4.isEmpty && r4.all isDigitCh && (r4.dropWhile isDigitCh).isEmpty then
          let ex : Int := esgn * (digitsVal 10 r4 : Nat)
          let net : Int := ex - (e0 : Int)
          if 0 ≤ net then .ok ⟨m0 * (10 : Int) ^ net.toNat, 0⟩
          else .ok ⟨m0, (-net).toNat⟩
        else .error (.valueError "float")
      else .error (.valueError "float")

/-- Drop trailing decimal zeros (`fuel ≥ e` suffices). -/
def trimZeros : Nat → Int → Nat → Int × Nat
  | 0, m, e => (m, e)
  | fuel + 1, m, e =>
    if e = 0 then (m, 0)
    else if m % 10 = 0 then trimZeros fuel (m / 10) (e - 1)
    else (m, e)

/-- Python `repr`/`str` of a float, for the decimal values the program
produces (shortest fixed-point form with at least one fractional digit). -/
def pyFloatRepr (d : Dec) : String :=
  let (m, e) := trimZeros d.e d.m d.e
  let sgn := if m < 0 then "-" else ""
  let n := m.natAbs
  if e = 0 then
    sgn ++ String.mk (natDigits 10 n) ++ ".0"
  else
    let frac := natDigits 10 (n % 10 ^ e)
    sgn ++ String.mk (natDigits 10 (n / 10 ^ e)) ++ "." ++
      String.mk (List.replicate (e - frac.length) '0' ++ frac)

/-! ## The OBIS registry (`obiscodes`, read_p1.py lines 36-63) -/

/-- The OBIS registry.  Note that the two serial-number entries
(`0-0:96.1.1`, `0-1:96.1.1`) are commented out in the source (lines
40-41) and the two gas-consumption codes share one description. -/
def obiscodes : List (String × String) :=
  [ ("0-0:1.0.0", "Timestamp"),
    ("0-0:96.3.10", "Switch electricity"),
    ("0-1:24.4.0", "Switch gas"),
    ("0-0:96.14.0", "Current rate (1=day,2=night)"),
    ("1-0:1.8.1", "Rate 1 (day) - total consumption"),
    ("1-0:1.8.2", "Rate 2 (night) - total consumption"),
    ("1-0:2.8.1", "Rate 1 (day) - total production"),
    ("1-0:2.8.2", "Rate 2 (night) - total production"),
    ("1-0:21.7.0", "L1 consumption"),
    ("1-0:41.7.0", "L2 consumption"),
    ("1-0:61.7.0", "L3 consumption"),
    ("1-0:1.7.0", "All phases consumption"),
    ("1-0:22.7.0", "L1 production"),
    ("1-0:42.7.0", "L2 production"),
    ("1-0:62.7.0", "L3 production"),
    ("1-0:2.7.0", "All phases production"),
    ("1-0:32.7.0", "L1 voltage"),
    ("1-0:52.7.0", "L2 voltage"),
    ("1-0:72.7.0", "L3 voltage"),
    ("1-0:31.7.0", "L1 current"),
    ("1-0:51.7.0", "L2 current"),
    ("1-0:71.7.0", "L3 current"),
    ("0-1:24.2.3", "Gas consumption"),
    ("0-1:24.2.1", "Gas consumption") ]

/-! ## `to_unixtime` (read_p1.py lines 65-79) -/

def isLeapYear (y : Nat) : Bool :=
  y % 4 = 0 && (y % 100 ≠ 0 || y % 400 = 0)

def daysInMonth (y mo : Nat) : Nat :=
  if mo = 2 then (if isLeapYear y then 29 else 28)
  else if mo = 4 || mo = 6 || mo = 9 || mo = 11 then 30
  else 31

/-- Days from 1970-01-01 to `y-mo-d` (proleptic Gregorian, `y ≥ 1`). -/
def daysFromCivil (y mo d : Nat) : Int :=
  let y' := if mo ≤ 2 then y - 1 else y
  let era := y' / 400
  let yoe := y' % 400
  let mp := if mo > 2 then mo - 3 else mo + 9
  let doy := (153 * mp + 2) / 5 + (d - 1)
  let doe := yoe * 365 + yoe / 4 - yoe / 100 + doy
  ((era * 146097 + doe : Nat) : Int) - 719468

/-- Seconds since the epoch of the civil time `y-mo-d h:mi:s` (UTC). -/
def epochSecs (y mo d h mi s : Nat) : Int :=
  86400 * daysFromCivil y mo d + (3600 * h + 60 * mi + s : Nat)

/-- Model of `datetime.strptime(_, '%y%m%d%H%M%S')` on the 12-digit timestamp
body (zero-padded fields, as the meter sends them; `strptime`'s
tolerance for unpadded single-digit fields is not modelled). -/
def parseP1Digits (l : List Char) : Option (Nat × Nat × Nat × Nat × Nat × Nat) :=
  match l with
  | [y1, y2, m1, m2, d1, d2, h1, h2, n1, n2, s1, s2] =>
    if [y1, y2, m1, m2, d1, d2, h1, h2, n1, n2, s1, s2].all isDigitCh then
      let yy := digitVal y1 * 10 + digitVal y2
      let y := if yy ≤ 68 then 2000 + yy else 1900 + yy
      let mo := digitVal m1 * 10 + digitVal m2
      let d := digitVal d1 * 10 + digitVal d2
      let h := digitVal h1 * 10 + digitVal h2
      let mi := digitVal n1 * 10 + digitVal n2
      let s := digitVal s1 * 10 + digitVal s2
      if 1 ≤ mo && mo ≤ 12 && 1 ≤ d && d ≤ daysInMonth y mo &&
         h ≤ 23 && mi ≤ 59 && s ≤ 59 then
        some (y, mo, d, h, mi, s)
      else none
    else none
  | _ => none

/-- Function `to_unixtime` (lines 65-79).  `p1time[-1]` selects the DST flag:
`'W'` gives offset `+0100`, `'S'` gives `+0200`; ANY OTHER flag reaches
`print(f"Unknown timezone {lastChax}, ...")` — where the source really
writes `lastChar`, a name that is never bound (the variable is
`last_char`) — so that branch raises `NameError` instead of falling
back to UTC. -/
def to_unixtime (p1time : String) : Except PyErr Int :=
  match p1time.data.getLast? with
  | none => .error .indexError
  | some lastc =>
    if lastc = 'W' then
      to_unixtimeBody p1time.data.dropLast 3600
    else if lastc = 'S' then
      to_unixtimeBody p1time.data.dropLast 7200
    else
      .error (.nameError "lastChar")
where
  to_unixtimeBody (body : List Char) (off : Int) : Except PyErr Int :=
    match parseP1Digits body with
    | none => .error (.valueError "strptime")
    | some (y, mo, d, h, mi, s) => .ok (epochSecs y mo d h mi s - off)

/-! ## CRC validator (`checkcrc`, read_p1.py lines 95-111) -/

/-- One shift step of CRC-16/ARC: test the LSB, shift right, and XOR
with the reflected polynomial `0xA001` when the bit was set. -/
def crcShift1 (c : Nat) : Nat := if c % 2 = 1 then (c / 2) ^^^ 0xA001 else c / 2

def crcShiftN : Nat → Nat → Nat
  | 0, c => c
  | n + 1, c => crcShiftN n (crcShift1 c)

def crcByteStep (c b : Nat) : Nat := crcShiftN 8 (c ^^^ b)

def crcFold (c : Nat) (bytes : List Nat) : Nat := bytes.foldl crcByteStep c

/-- Model of `crcmod.predefined.mkPredefinedCrcFun('crc16')`: CRC-16/ARC
(polynomial 0x8005 reflected = 0xA001, init 0, reflect in/out, no
final XOR). -/
def crc16 (bytes : List Nat) : Nat := crcFold 0 bytes

/-- All the splits `re.compile(b'\x0d\n(?=!)').finditer(p1telegram)`
produces, in match order.  For a match ending at index `i + 2`, the
source takes `p1contents = p1telegram[:match.end() + 1]` (the prefix
through the `'!'`) and the checksum text `p1telegram[match.end() + 1:]`;
`acc` is the reversed prefix already scanned.  After a match the regex
engine continues right after the consumed `\x0d\n`. -/
def crcSplits (acc : List Char) : List Char → List (List Char × List Char)
  | [] => []
  | '\x0d' :: '\n' :: '!' :: r =>
      (acc.reverse ++ ['\x0d', '\n', '!'], r) :: crcSplits ('\n' :: '\x0d' :: acc) ('!' :: r)
  | c :: rest => crcSplits (c :: acc) rest

/-- The `for match in ...finditer(...)` loop body of `checkcrc`: each
iteration rebinds `p1contents` and parses that match's checksum text
(`int(..., 16)` raising `ValueError` on bad hex); after the loop the
*last* iteration's bindings are in scope.  An empty match list leaves
`p1contents` unbound, so line 103 raises `NameError`. -/
def checkcrcLoop : List (List Char × List Char) → Except PyErr (List Char × Int)
  | [] => .error (.nameError "p1contents")
  | (content, s) :: rest =>
    match pyIntBase16 (pyStrip s), rest with
    | .error e, _ => .error e
    | .ok given, [] => .ok (content, given)
    | .ok _, r :: rs => checkcrcLoop (r :: rs)

/-- Lines 103-111 applied to the loop's final bindings: the source
compares `hex(givencrc) != hex(calccrc)` as strings; `pyHex` is that
canonical rendering, and `pyHex_inj` below shows the comparison
coincides with numeric equality. -/
def checkcrcVerdict (content : List Char) (given : Int) : Except PyErr Bool :=
  .ok (pyHex given == pyHex ((crc16 (content.map Char.toNat) : Nat) : Int))

/-- Function `checkcrc` (lines 95-111). -/
def checkcrc (p1telegram : String) : Except PyErr Bool :=
  match checkcrcLoop (crcSplits [] p1telegram.data) with
  | .error e => .error e
  | .ok (content, given) => checkcrcVerdict content given

/-- The spec-side verdict on a content/checksum-text split: parse the
hex suffix and compare the numbers. -/
def checkcrcSpecVerdict (content s : List Char) : Except PyErr Bool :=
  match pyIntBase16 (pyStrip s) with
  | .error e => .error e
  | .ok given =>
    .ok (decide (((crc16 (content.map Char.toNat) : Nat) : Int) = given))

/-- Modelled from the spec: split the telegram at the FIRST occurrence
of line-terminator + end-marker; the prefix inclusive of both is the
checksummed content, the suffix is the hex checksum text; compute
CRC-16/ARC over the content bytes and compare numerically with the
parsed hex suffix, true exactly when equal. -/
def checkcrcSpec (p1telegram : String) : Except PyErr Bool :=
  match crcSplits [] p1telegram.data with
  | [] => .error (.nameError "p1contents")
  | (content, s) :: _ => checkcrcSpecVerdict content s

/-! ## OBIS line decoder (`parsetelegramline`, read_p1.py lines 114-148) -/

/-- A decoded measurement: the dict
`{"desc": ..., "value": ..., "unit": ...}` the decoder returns.  A
value is either a raw string (timestamps, serials) or a float. -/
inductive PValue where
  | str (s : String)
  | dec (d : Dec)
  | int (n : Int)
deriving DecidableEq, Repr

structure P1Row where
  desc : String
  value : PValue
  unit : String
deriving DecidableEq, Repr

/-- Scan the shortest `(...)` group starting right after a `'('`:
content may not contain `')'` nor `'\n'` (the regex `.` does not match
newlines); returns the content and the remainder after the `')'`. -/
def takeGroup : List Char → Option (List Char × List Char)
  | [] => none
  | ')' :: rest => some ([], rest)
  | '\n' :: _ => none
  | c :: rest => (takeGroup rest).map (fun p => (c :: p.1, p.2))

/-- Model of `re.findall(r'\(.*?\)', p1line)` with the surrounding parentheses
already stripped (the source immediately slices `[1:-1]`); matches are
non-overlapping, found left to right; when no `')'` closes a `'('` the
engine moves one character past it (`fuel = length + 1` suffices). -/
def findGroupsAux : Nat → List Char → List (List Char)
  | 0, _ => []
  | _ + 1, [] => []
  | fuel + 1, '(' :: rest =>
    match takeGroup rest with
    | some (g, r) => g :: findGroupsAux fuel r
    | none => findGroupsAux fuel rest
  | fuel + 1, _ :: rest => findGroupsAux fuel rest

def findGroups (l : List Char) : List (List Char) := findGroupsAux (l.length + 1) l

/-- Python `bytearray.fromhex`: pairs of hex digits, ASCII spaces allowed
between pairs. -/
def fromHexPairs : List Char → Except PyErr (List Nat)
  | [] => .ok []
  | ' ' :: rest => fromHexPairs rest
  | a :: b :: rest =>
    if isHexDigitCh a && isHexDigitCh b then
      (fromHexPairs rest).map (fun bs => (digitVal a * 16 + digitVal b) :: bs)
    else .error (.valueError "fromhex")
  | [_] => .error (.valueError "fromhex")

/-- Model of `bytearray.fromhex(value).decode()`: the serial bytes decoded as
text.  All serials are ASCII; multi-byte UTF-8 sequences are not
modelled (and the branch is unreachable for registered codes anyway). -/
def hexPairsDecode (l : List Char) : Except PyErr String :=
  match fromHexPairs l with
  | .error e => .error e
  | .ok bs =>
    if bs.all (fun b => b < 128) then .ok (String.mk (bs.map Char.ofNat))
    else .error (.valueError "unicode")

/-- The selected group `value = values[0]`, overridden by `values[1]` when a second group
is present (gas-meter sub-readings, lines 128-131). -/
def selectedGroup (v0 : List Char) (vrest : List (List Char)) : List Char :=
  match vrest with
  | [] => v0
  | v1 :: _ => v1

/-- Function `parsetelegramline` (lines 114-148).  Returns `.ok none` for the
empty dict `{}` (OBIS code not registered), `.ok (some row)` for a
decoded measurement, `.error` when the line raises (`values[0]` on no
group: `IndexError`; `float()` / `fromhex` failures: `ValueError`).
The source's branch chain `if "96.1.1" in obis / elif not "1.0.0" in
obis / else` is rendered with the same tests in the same order. -/
def parsetelegramline (p1line : String) : Except PyErr (Option P1Row) :=
  let obis := String.mk ((pySplit p1line.data "(".data).headD [])
  match lookupA obiscodes obis with
  | none => .ok none
  | some desc =>
    match findGroups p1line.data with
    | [] => .error .indexError
    | v0 :: vrest =>
      let value := selectedGroup v0 vrest
      if containsSub "96.1.1".data obis.data then
        match hexPairsDecode value with
        | .error e => .error e
        | .ok s => .ok (some ⟨desc, .str s, ""⟩)
      else if !containsSub "1.0.0".data obis.data then
        let lvalue := pySplit value "*".data
        match pyFloat (lvalue.headD []) with
        | .error e => .error e
        | .ok q => .ok (some ⟨desc, .dec q, String.mk (lvalue.getD 1 [])⟩)
      else
        .ok (some ⟨desc, .str (String.mk value), ""⟩)

/-! ## Aggregation and effects of one telegram (main loop lines 191-219) -/

/-- The lines `p1telegram.split(b'\x0d\n')` hands to the decoder. -/
def telegramLines (tel : String) : List String :=
  (pySplit tel.data "\x0d\n".data).map String.mk

/-- The `output` dict: fold every decoded row in with
`output[row["desc"]] = row["value"]` (lines 193-197); a raised
line-level fault aborts the whole telegram. -/
def buildOutput : List String → List (String × PValue) →
    Except PyErr (List (String × PValue))
  | [], acc => .ok acc
  | line :: rest, acc =>
    match parsetelegramline line with
    | .error e => .error e
    | .ok none => buildOutput rest acc
    | .ok (some row) => buildOutput rest (upsert acc row.desc row.value)

def rate1ConsKey : String := "Rate 1 (day) - total consumption"
def rate2ConsKey : String := "Rate 2 (night) - total consumption"
def rate1ProdKey : String := "Rate 1 (day) - total production"
def rate2ProdKey : String := "Rate 2 (night) - total production"

/-- The JSON payload built on line 217:
`f"{{\"ts\":\"{timestamp}\",\"c\":\"{consumption}\",\"p\":\"{production}\"}}"`. -/
def snapshotJson (ts : Int) (c p : Dec) : String :=
  "\x7b\"ts\":\"" ++ pyIntRepr ts ++ "\",\"c\":\"" ++ pyFloatRepr c ++
    "\",\"p\":\"" ++ pyFloatRepr p ++ "\"\x7d"

/-- The effects of one validated telegram: the CSV rows appended (in
order, with their file names) and the snapshot string published to
`latest_data`, if any. -/
def Effects := List (String × List (String × PValue)) × Option String

deriving instance DecidableEq for Effects

/-- Path `f"data/{date}.csv"` with `date = output['Timestamp'][0:6]`. -/
def fullPath (ts : String) : String := "data/" ++ String.mk (ts.data.take 6) ++ ".csv"

/-- Path `f"data/{date}_summed.csv"`. -/
def summedPath (ts : String) : String := "data/" ++ String.mk (ts.data.take 6) ++ "_summed.csv"

/-- Lines 205-219 once the Timestamp string is in hand: the full record
was already written; `to_unixtime` and the four rate lookups may still
fault (leaving only that row behind); otherwise the summary row is
written and the JSON snapshot built and published. -/
def aggregateTs (output : List (String × PValue)) (ts : String) : Effects :=
  match to_unixtime ts with
  | .error _ => ([(fullPath ts, output)], none)
  | .ok t =>
    match lookupA output rate1ConsKey, lookupA output rate2ConsKey,
          lookupA output rate1ProdKey, lookupA output rate2ProdKey with
    | some (.dec c1), some (.dec c2), some (.dec p1), some (.dec p2) =>
      ([(fullPath ts, output),
        (summedPath ts, [("timestamp", PValue.int t),
                         ("Total consumption", PValue.dec (Dec.add c1 c2)),
                         ("Total production", PValue.dec (Dec.add p1 p2))])],
       some (snapshotJson t (Dec.add c1 c2) (Dec.add p1 p2)))
    | _, _, _, _ => ([(fullPath ts, output)], none)

/-- Lines 204-219 for a CRC-valid, successfully decoded telegram.  The
order of operations in the source decides what a fault leaves behind:
`date = output['Timestamp'][0:6]` faults (KeyError when Timestamp is
absent, TypeError on a non-string) before anything is written; the rest
is `aggregateTs`.  Any exception is caught by the loop's bare `except`,
making the rest of the iteration a no-op. -/
def aggregate (output : List (String × PValue)) : Effects :=
  match lookupA output "Timestamp" with
  | some (.str ts) => aggregateTs output ts
  | some _ => ([], none)
  | none => ([], none)

/-- Lines 192-219 for a telegram that passed `checkcrc`: a decoding
fault aborts before anything is written. -/
def processValid (tel : String) : Effects :=
  match buildOutput (telegramLines tel) [] with
  | .error _ => ([], none)
  | .ok output => aggregate output

/-- Lines 191-219: what one complete assembled telegram does.  A failed
CRC check (False or an exception) skips everything. -/
def processTelegram (tel : String) : Effects :=
  match checkcrc tel with
  | .ok true => processValid tel
  | _ => ([], none)

/-- Tests that every one of the four day/night rate fields is present
with a float value (the only case in which lines 208-209 do not fault:
the rate descriptions only ever receive float values, so an absent key
is the sole failure mode, a `KeyError`). -/
def isDecV : Option PValue → Bool
  | some (.dec _) => true
  | _ => false

def ratesIncomplete (output : List (String × PValue)) : Bool :=
  !(isDecV (lookupA output rate1ConsKey) && isDecV (lookupA output rate2ConsKey) &&
    isDecV (lookupA output rate1ProdKey) && isDecV (lookupA output rate2ProdKey))

/-! ## Telegram framer (main loop lines 169-191) -/

/-- One iteration of the read loop for one line from `ser.readline()`
(the line includes its original terminator): reset the buffer when the
line contains `'/'`, always append the line, and hand the buffer to
validation when the line contains `'!'`. -/
def framerStep (buf line : String) : String × Option String :=
  let buf1 := if containsSub "/".data line.data then "" else buf
  let buf2 := buf1 ++ line
  (buf2, if containsSub "!".data line.data then some buf2 else none)

/-- The framer run over a whole list of lines: final buffer and the
telegrams emitted to validation, in order. -/
def runFramer (buf : String) : List String → String × List String
  | [] => (buf, [])
  | line :: rest =>
    let step := framerStep buf line
    let recur := runFramer step.1 rest
    (recur.1, step.2.toList ++ recur.2)

/-! ## The read-serving path (`latest_data`, `Handler.do_GET`) -/

/-- Initial value of the shared `latest_data` (line 33). -/
def latest_data : String := ""

/-- Method `Handler.do_GET` (lines 240-255): when `"?live"` occurs in the
request path, respond 200 / `application/json` with the current
`latest_data`; otherwise (`none`) delegate to the static file server,
which is outside the modelled core. -/
def doGET (latestData path : String) : Option (Nat × String × String) :=
  if containsSub "?live".data path.data then
    some (200, "application/json", latestData)
  else
    none

/-! ## Concrete telegrams used as witnesses -/

def c9a : String := "/FLU5\x0d\n\x0d\n0-0:1.0.0(230615123045S)\x0d\n"
def c9b : String := "1-0:1.8.1(123.456*kWh)\x0d\n"
def c9c : String := "1-0:1.8.2(000.000*kWh)\x0d\n"
def c9d : String := "1-0:2.8.1(000.000*kWh)\x0d\n"
def c9e : String := "1-0:2.8.2(000.000*kWh)\x0d\n!"

/-- The spec's §8 scenario telegram content, through the `'!'`. -/
def c9content : String := c9a ++ c9b ++ c9c ++ c9d ++ c9e

/-- The scenario telegram with its correct CRC (`0x1E59`). -/
def telC9 : String := c9content ++ "1E59\x0d\n"

/-- The scenario telegram with ONE corrupted checksum byte
(final hex digit `9` replaced by `A`). -/
def telBad : String := c9content ++ "1E5A\x0d\n"

/-- CRC-valid telegram carrying a Timestamp but none of the four rate
fields. -/
def c4content : String := "/FLU5\x0d\n\x0d\n0-0:1.0.0(230615123045S)\x0d\n!"

def telC4 : String := c4content ++ "B3E1\x0d\n"

/-- CRC-valid telegram whose record has no Timestamp at all. -/
def c4acontent : String := "/FLU5\x0d\n\x0d\n!"

def telC4a : String := c4acontent ++ "9E56\x0d\n"

/-- The record the scenario telegram decodes to. -/
def outC9 : List (String × PValue) :=
  [("Timestamp", PValue.str "230615123045S"),
   (rate1ConsKey, PValue.dec ⟨123456, 3⟩),
   (rate2ConsKey, PValue.dec ⟨0, 3⟩),
   (rate1ProdKey, PValue.dec ⟨0, 3⟩),
   (rate2ProdKey, PValue.dec ⟨0, 3⟩)]

/-! ## Supporting lemmas -/

theorem crcFold_append (c : Nat) (a b : List Nat) :
    crcFold c (a ++ b) = crcFold (crcFold c a) b := by
  simp [crcFold, List.foldl_append]

theorem mem_dropWhile {p : Char → Bool} {l : List Char} {c : Char}
    (hc : c ∈ l) (hp : p c = false) : c ∈ l.dropWhile p := by
  induction l with
  | nil => cases hc
  | cons a rest ih =>
      rw [List.dropWhile]
      cases hpa : p a with
      | true =>
          rcases List.mem_cons.mp hc with h | h
          · subst h; rw [hp] at hpa; cases hpa
          · exact ih h
      | false => exact hc

theorem mem_pyStrip {l : List Char} {c : Char}
    (hc : c ∈ l) (hp : isPySpace c = false) : c ∈ pyStrip l := by
  unfold pyStrip
  apply List.mem_reverse.mpr
  apply mem_dropWhile _ hp
  apply List.mem_reverse.mpr
  exact mem_dropWhile hc hp

theorem mem_stripSign {l : List Char} {c : Char}
    (hc : c ∈ l) (h1 : c ≠ '+') (h2 : c ≠ '-') : c ∈ stripSign l := by
  unfold stripSign
  split
  · rcases List.mem_cons.mp hc with h | h
    · exact absurd h h1
    · exact h
  · rcases List.mem_cons.mp hc with h | h
    · exact absurd h h2
    · exact h
  · exact hc

theorem mem_strip0x {l : List Char} {c : Char}
    (hc : c ∈ l) (h1 : c ≠ '0') (h2 : c ≠ 'x') (h3 : c ≠ 'X') : c ∈ strip0x l := by
  unfold strip0x
  split
  · rcases List.mem_cons.mp hc with h | h
    · exact absurd h h1
    rcases List.mem_cons.mp h with h | h
    · exact absurd h h2
    · exact h
  · rcases List.mem_cons.mp hc with h | h
    · exact absurd h h1
    rcases List.mem_cons.mp h with h | h
    · exact absurd h h3
    · exact h
  · exact hc

/-- A `'!'` anywhere in the checksum text makes `int(_, 16)` raise. -/
theorem pyIntBase16_bang {l : List Char} (h : '!' ∈ l) :
    pyIntBase16 l = .error (.valueError "int16") := by
  have h1 : '!' ∈ pyStrip l := mem_pyStrip h (by decide)
  have h2 : '!' ∈ strip0x (stripSign (pyStrip l)) :=
    mem_strip0x (mem_stripSign h1 (by decide) (by decide)) (by decide) (by decide) (by decide)
  have h3 : (strip0x (stripSign (pyStrip l))).all isHexDigitCh = false := by
    rw [List.all_eq_false]
    exact ⟨'!', h2, by decide⟩
  simp [pyIntBase16, h3]

/-- A telegram producing at least one regex match contains a `'!'`. -/
theorem crcSplits_bang : ∀ acc l, crcSplits acc l ≠ [] → '!' ∈ l := by
  intro acc l
  induction acc, l using crcSplits.induct with
  | case1 acc => intro h; simp [crcSplits] at h
  | case2 acc r ih => intro _; simp
  | case3 acc c rest hne ih =>
      intro h
      rw [crcSplits.eq_3 acc c rest hne] at h
      exact List.mem_cons_of_mem c (ih h)

/-- With two or more matches, the first match's checksum text contains
the `'!'` of a later match. -/
theorem crcSplits_two : ∀ acc l x y rest, crcSplits acc l = x :: y :: rest → '!' ∈ x.2 := by
  intro acc l
  induction acc, l using crcSplits.induct with
  | case1 acc => intro x y rest h; simp [crcSplits] at h
  | case2 acc r ih =>
      intro x y rest h
      rw [crcSplits.eq_2] at h
      injection h with h1 h2
      subst h1
      have hr : crcSplits ('!' :: '\n' :: '\x0d' :: acc) r ≠ [] := by
        rw [crcSplits.eq_3 ('\n' :: '\x0d' :: acc) '!' r (by intro r' hc _; cases hc)] at h2
        intro hnil
        rw [hnil] at h2
        cases h2
      exact crcSplits_bang _ _ hr
  | case3 acc c rest hne ih =>
      intro x y rest2 h
      rw [crcSplits.eq_3 acc c rest hne] at h
      exact ih x y rest2 h

/-- No occurrence of the separator `\x0d\n!` means no match at all. -/
theorem crcSplits_nil : ∀ acc l, containsSub ['\x0d', '\n', '!'] l = false →
    crcSplits acc l = [] := by
  intro acc l
  induction acc, l using crcSplits.induct with
  | case1 acc => intro _; rfl
  | case2 acc r ih =>
      intro h
      exfalso
      rw [containsSub] at h
      simp [List.isPrefixOf] at h
  | case3 acc c rest hne ih =>
      intro h
      rw [containsSub, Bool.or_eq_false_iff] at h
      rw [crcSplits.eq_3 acc c rest hne]
      exact ih h.2

theorem digitVal_digitChar : ∀ d : Nat, d < 16 → digitVal (Nat.digitChar d) = d := by decide

theorem digitsVal_append_one (b : Nat) (ds : List Char) (c : Char) :
    digitsVal b (ds ++ [c]) = digitsVal b ds * b + digitVal c := by
  simp [digitsVal, List.foldl_append]

theorem natDigitsAux_val (b : Nat) (hb : 2 ≤ b) (hb16 : b ≤ 16) :
    ∀ fuel n, n < fuel → digitsVal b (natDigitsAux b fuel n) = n := by
  intro fuel
  induction fuel with
  | zero => intro n h; omega
  | succ fuel ih =>
      intro n h
      by_cases hn : n < b
      · simp only [natDigitsAux, if_pos hn]
        simp [digitsVal, digitVal_digitChar n (by omega)]
      · have hdiv : n / b < n := Nat.div_lt_self (by omega) (by omega)
        have hmod : n % b < b := Nat.mod_lt n (by omega)
        have hdm := Nat.div_add_mod n b
        simp only [natDigitsAux, if_neg hn]
        rw [digitsVal_append_one, ih (n / b) (by omega)]
        rw [digitVal_digitChar (n % b) (by omega)]
        rw [Nat.mul_comm]
        exact hdm

theorem natDigits_val (b : Nat) (hb : 2 ≤ b) (hb16 : b ≤ 16) (n : Nat) :
    digitsVal b (natDigits b n) = n :=
  natDigitsAux_val b hb hb16 (n + 1) n (Nat.lt_succ_self n)

theorem natDigits_inj (b : Nat) (hb : 2 ≤ b) (hb16 : b ≤ 16) {n m : Nat}
    (h : natDigits b n = natDigits b m) : n = m := by
  have h1 := natDigits_val b hb hb16 n
  have h2 := natDigits_val b hb hb16 m
  rw [h] at h1
  omega

/-- Python's `hex()` is a canonical, injective rendering of integers. -/
theorem pyHex_inj {a b : Int} (h : pyHex a = pyHex b) : a = b := by
  unfold pyHex at h
  have h' : (if a < 0 then ['-'] else []) ++ '0' :: 'x' :: natDigits 16 a.natAbs =
      (if b < 0 then ['-'] else []) ++ '0' :: 'x' :: natDigits 16 b.natAbs := by
    injection h
  by_cases ha : a < 0 <;> by_cases hb2 : b < 0
  · rw [if_pos ha, if_pos hb2] at h'
    simp only [List.singleton_append] at h'
    injection h' with h1 h2
    injection h2 with h3 h4
    injection h4 with h5 h6
    have := natDigits_inj 16 (by omega) (by omega) h6
    omega
  · rw [if_pos ha, if_neg hb2] at h'
    simp only [List.singleton_append, List.nil_append] at h'
    injection h' with h1 h2
    exact absurd h1 (by decide)
  · rw [if_neg ha, if_pos hb2] at h'
    simp only [List.singleton_append, List.nil_append] at h'
    injection h' with h1 h2
    exact absurd h1 (by decide)
  · rw [if_neg ha, if_neg hb2] at h'
    simp only [List.nil_append] at h'
    injection h' with h1 h2
    injection h2 with h3 h4
    have := natDigits_inj 16 (by omega) (by omega) h4
    omega

/-- Equality of the `hex()` strings is numeric equality. -/
theorem pyHex_beq (a b : Int) : (pyHex a == pyHex b) = decide (a = b) := by
  by_cases h : a = b
  · subst h; simp
  · rw [decide_eq_false h]
    exact beq_eq_false_iff_ne.mpr (fun hc => h (pyHex_inj hc))

/-- C2: `checkcrc` coincides with the spec-modelled `checkcrcSpec`,
which splits the telegram at the FIRST occurrence of the
line-terminator + `'!'` separator, takes the prefix inclusive of both
as the checksummed content and the suffix as the hex checksum text,
computes CRC-16/ARC over the content bytes, and compares numerically
with the parsed suffix, true exactly when equal and false on mismatch.
(The source's loop keeps the LAST match's bindings and compares
`hex()` strings, but this is observably the same function: with no
match both raise `NameError`; with one match they coincide, the string
comparison of canonical `hex()` renderings being numeric comparison by
`pyHex_beq`; with several matches the first match's checksum text
contains a later `'!'`, so both raise the same `ValueError` while
parsing it before any later match is reached.) -/
theorem checkcrc_eq_checkcrcSpec (tel : String) : checkcrc tel = checkcrcSpec tel := by
  cases h : crcSplits [] tel.data with
  | nil =>
      unfold checkcrc checkcrcSpec
      rw [h]
      rfl
  | cons x rest =>
      obtain ⟨content, s⟩ := x
      cases rest with
      | nil =>
          have hspec : checkcrcSpec tel = checkcrcSpecVerdict content s := by
            unfold checkcrcSpec
            rw [h]
          cases hp : pyIntBase16 (pyStrip s) with
          | error e =>
              have hl : checkcrcLoop [(content, s)] = .error e := by
                unfold checkcrcLoop
                rw [hp]
              have hL : checkcrc tel = .error e := by
                unfold checkcrc
                rw [h, hl]
              have hR : checkcrcSpecVerdict content s = .error e := by
                unfold checkcrcSpecVerdict
                rw [hp]
              rw [hL, hspec, hR]
          | ok g =>
              have hl : checkcrcLoop [(content, s)] = .ok (content, g) := by
                unfold checkcrcLoop
                rw [hp]
              have hL : checkcrc tel = checkcrcVerdict content g := by
                unfold checkcrc
                rw [h, hl]
              have hR : checkcrcSpecVerdict content s =
                  .ok (decide (((crc16 (content.map Char.toNat) : Nat) : Int) = g)) := by
                unfold checkcrcSpecVerdict
                rw [hp]
              rw [hL, hspec, hR]
              unfold checkcrcVerdict
              rw [pyHex_beq]
              congr 1
              simp [eq_comm]
      | cons y rest2 =>
          have hbang : '!' ∈ s := crcSplits_two [] tel.data (content, s) y rest2 h
          have hp : pyIntBase16 (pyStrip s) = .error (.valueError "int16") :=
            pyIntBase16_bang (mem_pyStrip hbang (by decide))
          have hl : checkcrcLoop ((content, s) :: y :: rest2) = .error (.valueError "int16") := by
            unfold checkcrcLoop
            rw [hp]
          have hL : checkcrc tel = .error (.valueError "int16") := by
            unfold checkcrc
            rw [h, hl]
          have hspec : checkcrcSpec tel = checkcrcSpecVerdict content s := by
            unfold checkcrcSpec
            rw [h]
          have hR : checkcrcSpecVerdict content s = .error (.valueError "int16") := by
            unfold checkcrcSpecVerdict
            rw [hp]
          rw [hL, hspec, hR]

theorem lookupA_mem {α : Type} : ∀ (l : List (String × α)) (k : String) (v : α),
    lookupA l k = some v → (k, v) ∈ l := by
  intro l
  induction l with
  | nil => intro k v h; cases h
  | cons p rest ih =>
      intro k v h
      obtain ⟨k0, v0⟩ := p
      rw [lookupA] at h
      by_cases hk : k0 = k
      · subst hk
        rw [if_pos rfl] at h
        injection h with h
        subst h
        exact List.mem_cons_self _ _
      · rw [if_neg hk] at h
        exact List.mem_cons_of_mem _ (ih k v h)

/-- No registered OBIS code contains the serial-number marker
(the two serial entries are commented out in the source). -/
theorem obiscodes_no_serial :
    ∀ p ∈ obiscodes, containsSub "96.1.1".data p.1.data = false := by decide

/-- Among registered codes, containing `"1.0.0"` is the same as being
the timestamp code. -/
theorem obiscodes_ts :
    ∀ p ∈ obiscodes,
      containsSub "1.0.0".data p.1.data = (p.1 == "0-0:1.0.0") := by decide

theorem lookupA_any_false {α : Type} : ∀ (m : List (String × α)) (k : String),
    m.any (fun p => decide (p.1 = k)) = false → lookupA m k = none := by
  intro m k
  induction m with
  | nil => intro _; rfl
  | cons p rest ih =>
      intro h
      obtain ⟨k0, v0⟩ := p
      rw [List.any_cons, Bool.or_eq_false_iff] at h
      rw [lookupA, if_neg (of_decide_eq_false h.1)]
      exact ih h.2

theorem lookupA_append_last {α : Type} : ∀ (m : List (String × α)) (k : String) (v : α),
    lookupA m k = none → lookupA (m ++ [(k, v)]) k = some v := by
  intro m k v
  induction m with
  | nil => intro _; simp [lookupA]
  | cons p rest ih =>
      intro h
      obtain ⟨k0, v0⟩ := p
      rw [lookupA] at h
      by_cases hk : k0 = k
      · rw [if_pos hk] at h; cases h
      · rw [if_neg hk] at h
        rw [List.cons_append, lookupA, if_neg hk]
        exact ih h

theorem lookupA_map_upd {α : Type} (k : String) (v : α) :
    ∀ m : List (String × α), m.any (fun p => decide (p.1 = k)) = true →
      lookupA (m.map (fun p => if p.1 = k then (k, v) else p)) k = some v := by
  intro m
  induction m with
  | nil => intro h; cases h
  | cons p rest ih =>
      intro h
      obtain ⟨k0, v0⟩ := p
      by_cases hk : k0 = k
      · subst hk
        rw [List.map_cons, if_pos rfl, lookupA, if_pos rfl]
      · rw [List.any_cons, decide_eq_false hk, Bool.false_or] at h
        rw [List.map_cons, if_neg hk, lookupA, if_neg hk]
        exact ih h

/-- Assignment `output[k] = v` makes the later binding win: looking `k` up after
the assignment yields `v` whatever was there before. -/
theorem lookupA_upsert {α : Type} (m : List (String × α)) (k : String) (v : α) :
    lookupA (upsert m k v) k = some v := by
  unfold upsert
  cases h : m.any (fun p => decide (p.1 = k)) with
  | true => rw [if_pos rfl]; exact lookupA_map_upd k v m h
  | false =>
      simp only [Bool.false_eq_true, if_neg]
      exact lookupA_append_last m k v (lookupA_any_false m k h)

/-- Folding decoder rows is compositional in the line list. -/
theorem buildOutput_append : ∀ (l1 l2 : List String) (acc : List (String × PValue)),
    buildOutput (l1 ++ l2) acc =
      match buildOutput l1 acc with
      | .error e => .error e
      | .ok out => buildOutput l2 out := by
  intro l1
  induction l1 with
  | nil => intro l2 acc; rfl
  | cons line rest ih =>
      intro l2 acc
      rw [List.cons_append, buildOutput, buildOutput]
      cases parsetelegramline line with
      | error e => rfl
      | ok row =>
          cases row with
          | none => exact ih l2 acc
          | some r => exact ih l2 (upsert acc r.desc r.value)

/-! ## Kernel-sized evaluation of the scenario telegram's CRC -/

theorem checkcrc_eval (tel : String) (content s : List Char) (g : Int) (v : Nat)
    (h1 : crcSplits [] tel.data = [(content, s)])
    (h2 : pyIntBase16 (pyStrip s) = .ok g)
    (h3 : crc16 (content.map Char.toNat) = v) :
    checkcrc tel = .ok (pyHex g == pyHex (v : Int)) := by
  have hl : checkcrcLoop [(content, s)] = .ok (content, g) := by
    unfold checkcrcLoop
    rw [h2]
  unfold checkcrc
  rw [h1, hl]
  show checkcrcVerdict content g = _
  unfold checkcrcVerdict
  rw [h3]

theorem c9content_parts : c9content = c9a ++ c9b ++ c9c ++ c9d ++ c9e := rfl

/-- The scenario content's CRC-16/ARC, computed in checkable chunks. -/
theorem crc_c9 : crc16 (c9content.data.map Char.toNat) = 7769 := by
  rw [c9content_parts]
  simp only [crc16, String.data_append, List.map_append, crcFold_append]
  rw [show crcFold 0 (c9a.data.map Char.toNat) = 24731 from by decide]
  rw [show crcFold 24731 (c9b.data.map Char.toNat) = 25743 from by decide]
  rw [show crcFold 25743 (c9c.data.map Char.toNat) = 3775 from by decide]
  rw [show crcFold 3775 (c9d.data.map Char.toNat) = 51135 from by decide]
  exact (by decide : crcFold 51135 (c9e.data.map Char.toNat) = 7769)

theorem checkcrc_telC9 : checkcrc telC9 = .ok true := by
  rw [checkcrc_eval telC9 c9content.data "1E59\x0d\n".data 7769 7769
    (by decide) (by decide) crc_c9]
  decide

theorem checkcrc_telBad : checkcrc telBad = .ok false := by
  rw [checkcrc_eval telBad c9content.data "1E5A\x0d\n".data 7770 7769
    (by decide) (by decide) crc_c9]
  decide

/-! ## Claim theorems -/

/-- C1: for every telegram assembled by the acquisition loop, CSV rows
are persisted and a snapshot is published only if `checkcrc` returned
`True` for that telegram: any other verdict (False or an exception)
leaves zero rows and zero publications. -/
theorem c1_crc_gate (tel : String) (h : checkcrc tel ≠ .ok true) :
    processTelegram tel = ([], none) := by
  unfold processTelegram
  cases hc : checkcrc tel with
  | error e => rfl
  | ok b =>
      cases b with
      | true => exact absurd hc h
      | false => rfl

/-- C1 witness: the scenario telegram with one corrupted checksum byte
is rejected by `checkcrc` and yields zero persisted rows and zero
snapshot publications. -/
theorem c1_crc_gate_witness :
    checkcrc telBad = .ok false ∧ processTelegram telBad = ([], none) :=
  ⟨checkcrc_telBad, c1_crc_gate telBad (by rw [checkcrc_telBad]; decide)⟩

/-- C10: `checkcrc` returns a boolean verdict only when the byte
sequence `\x0d\n` immediately followed by `'!'` occurs in the telegram;
when that separator never occurs, the loop binds nothing and line 103
raises `NameError` instead of returning `True` or `False`. -/
theorem c10_checkcrc_needs_separator (tel : String)
    (h : containsSub "\x0d\n!".data tel.data = false) :
    checkcrc tel = .error (.nameError "p1contents") := by
  have hnil : crcSplits [] tel.data = [] := crcSplits_nil [] tel.data h
  unfold checkcrc
  rw [hnil]
  rfl

/-- C10 witness: a separator-free input makes `checkcrc` fail with
`NameError` rather than produce a verdict. -/
theorem c10_witness :
    containsSub "\x0d\n!".data "HELLO".data = false ∧
    checkcrc "HELLO" = .error (.nameError "p1contents") :=
  ⟨by decide, c10_checkcrc_needs_separator "HELLO" (by decide)⟩

/-- C3: `to_unixtime` maps flag `'S'` to offset +02:00 and `'W'` to
+01:00 (the `'W'` result exceeding the `'S'` result by exactly 3600
seconds on identical digits), but an unrecognized flag does NOT fall
back to UTC: the diagnostic `print` on line 75 references the undefined
name `lastChar` (the bound variable is `last_char`), so any other flag
raises `NameError` instead of returning a timestamp. -/
theorem c3_to_unixtime_flags :
    to_unixtime "230615123045S" = .ok 1686825045 ∧
    to_unixtime "230615123045W" = .ok (1686825045 + 3600) ∧
    to_unixtime "230615123045X" = .error (.nameError "lastChar") := by
  refine ⟨by decide, by decide, by decide⟩

/-- C5 counterexample: a serial-number line (`hex 4142`) does NOT
decode to a Measurement with value "AB"; the serial codes are absent
from the registry (commented out), so the decoder returns the empty
dict (no match). -/
theorem c5_counterexample :
    parsetelegramline "0-0:96.1.1(4142)" = .ok none := by decide

/-- C5 (amended): every line whose object identifier contains the
serial-number marker `96.1.1` is skipped as no-match, because no
registered code contains that marker; the hex-pairs-to-ASCII decoding
the (dead) branch would perform does map `"4142"` to `"AB"`. -/
theorem c5_serial_unregistered :
    (∀ line obis : String,
        obis = String.mk ((pySplit line.data "(".data).headD []) →
        containsSub "96.1.1".data obis.data = true →
        parsetelegramline line = .ok none) ∧
    hexPairsDecode "4142".data = .ok "AB" := by
  constructor
  · intro line obis hobis hser
    have hnone : lookupA obiscodes (String.mk ((pySplit line.data "(".data).headD [])) = none := by
      cases hl : lookupA obiscodes (String.mk ((pySplit line.data "(".data).headD [])) with
      | none => rfl
      | some d =>
          exfalso
          have hmem := lookupA_mem _ _ _ hl
          have hns := obiscodes_no_serial _ hmem
          rw [← hobis] at hns
          rw [hser] at hns
          cases hns
    simp only [parsetelegramline, hnone]
  · decide

/-- C5 witness: the serial line with hex value `4142` returns no-match,
and the hex decoding itself yields "AB". -/
theorem c5_witness :
    parsetelegramline "0-0:96.1.1(4142)" = .ok none ∧
    hexPairsDecode "4142".data = .ok "AB" :=
  ⟨c5_serial_unregistered.1 "0-0:96.1.1(4142)" "0-0:96.1.1" (by decide) (by decide),
   c5_serial_unregistered.2⟩

theorem str_empty_append (s : String) : "" ++ s = s := by
  cases s
  rfl

/-- C6: the framer resets the buffer before appending when the line
contains the start marker `/` (discarding any previous partial buffer —
the result does not depend on the old buffer at all), appends every
line as received (terminator included) to the buffer, and hands the
buffer to validation as one complete telegram when the line contains
the end marker `!`. -/
theorem c6_framer_behavior :
    (∀ buf line : String, containsSub "/".data line.data = true →
        (framerStep buf line).1 = line) ∧
    (∀ buf line : String, containsSub "/".data line.data = false →
        (framerStep buf line).1 = buf ++ line) ∧
    (∀ buf line : String, (framerStep buf line).2 =
        if containsSub "!".data line.data then some (framerStep buf line).1 else none) ∧
    (∀ (buf1 buf2 line : String) (rest : List String),
        containsSub "/".data line.data = true →
        runFramer buf1 (line :: rest) = runFramer buf2 (line :: rest)) := by
  refine ⟨?_, ?_, ?_, ?_⟩
  · intro buf line h
    simp only [framerStep, h, if_true]
    exact str_empty_append line
  · intro buf line h
    simp only [framerStep, h, Bool.false_eq_true, if_false]
  · intro buf line
    rfl
  · intro buf1 buf2 line rest h
    have hstep : framerStep buf1 line = framerStep buf2 line := by
      simp only [framerStep, h, if_true]
    rw [runFramer, runFramer, hstep]

/-- C6 witness: a `/`-line replaces a junk buffer, an ordinary line is
appended verbatim, and the discard makes the run independent of the
pre-existing buffer. -/
theorem c6_witness :
    (framerStep "junk" "/ADN9\x0d\n").1 = "/ADN9\x0d\n" ∧
    (framerStep "A\x0d\n" "B*kWh)\x0d\n").1 = "A\x0d\n" ++ "B*kWh)\x0d\n" ∧
    runFramer "junk" ["/A\x0d\n", "!X\x0d\n"] = runFramer "other" ["/A\x0d\n", "!X\x0d\n"] :=
  ⟨c6_framer_behavior.1 "junk" "/ADN9\x0d\n" (by decide),
   c6_framer_behavior.2.1 "A\x0d\n" "B*kWh)\x0d\n" (by decide),
   c6_framer_behavior.2.2.2 "junk" "other" "/A\x0d\n" ["!X\x0d\n"] (by decide)⟩

/-- C8: registry lookup is a pure function (the two distinct
gas-consumption codes both map to the description "Gas consumption"),
and folding measurements into the record keys by description with
last-write-wins: after `output[desc] = v`, looking `desc` up yields
`v`; appending a decoded line to a telegram's line list updates the
record exactly by that upsert. -/
theorem c8_registry_lastwins :
    (("0-1:24.2.3" : String) ≠ "0-1:24.2.1" ∧
     lookupA obiscodes "0-1:24.2.3" = some "Gas consumption" ∧
     lookupA obiscodes "0-1:24.2.1" = some "Gas consumption") ∧
    (∀ (rec : List (String × PValue)) (k : String) (v : PValue),
        lookupA (upsert rec k v) k = some v) ∧
    (∀ (lines : List String) (acc output : List (String × PValue))
        (line : String) (row : P1Row),
        buildOutput lines acc = .ok output →
        parsetelegramline line = .ok (some row) →
        buildOutput (lines ++ [line]) acc = .ok (upsert output row.desc row.value)) := by
  refine ⟨by decide, fun rec k v => lookupA_upsert rec k v, ?_⟩
  intro lines acc output line row h1 h2
  rw [buildOutput_append, h1]
  show buildOutput [line] output = _
  rw [buildOutput, h2]
  rfl

/-- C8 witness: the two gas lines collide on one description and the
later line's value wins. -/
theorem c8_witness :
    buildOutput ["0-1:24.2.3(230615123045S)(100.5*m3)",
                 "0-1:24.2.1(230615123045S)(200.25*m3)"] [] =
      .ok (upsert [("Gas consumption", PValue.dec ⟨1005, 1⟩)]
            "Gas consumption" (PValue.dec ⟨20025, 2⟩)) ∧
    lookupA (upsert [("Gas consumption", PValue.dec ⟨1005, 1⟩)]
            "Gas consumption" (PValue.dec ⟨20025, 2⟩)) "Gas consumption" =
      some (PValue.dec ⟨20025, 2⟩) :=
  ⟨c8_registry_lastwins.2.2 ["0-1:24.2.3(230615123045S)(100.5*m3)"] []
      [("Gas consumption", PValue.dec ⟨1005, 1⟩)]
      "0-1:24.2.1(230615123045S)(200.25*m3)"
      ⟨"Gas consumption", PValue.dec ⟨20025, 2⟩, "m3"⟩ (by decide) (by decide),
   c8_registry_lastwins.2.1 [("Gas consumption", PValue.dec ⟨1005, 1⟩)]
      "Gas consumption" (PValue.dec ⟨20025, 2⟩)⟩

/-- C4 counterexample: a CRC-valid telegram whose record has a
Timestamp but lacks the rate fields is NOT a zero-row no-op: the
full-record CSV row is written (on line 205, before the rate lookups
fault) even though no summary row and no snapshot follow. -/
theorem c4_counterexample :
    checkcrc telC4 = .ok true ∧
    processTelegram telC4 =
      ([("data/230615.csv", [("Timestamp", PValue.str "230615123045S")])], none) :=
  ⟨by decide, by decide⟩

/-- C4 (amended): a CRC-valid telegram whose record lacks the Timestamp
writes nothing and publishes nothing; one whose record has a Timestamp
but lacks any of the four rate fields (which are never zero-defaulted)
has already had its full-record CSV row written when the fault hits, so
exactly that one row is persisted and no summary row or snapshot
follows. -/
theorem c4_missing_fields (tel : String) (output : List (String × PValue))
    (hcrc : checkcrc tel = .ok true)
    (hout : buildOutput (telegramLines tel) [] = .ok output) :
    (lookupA output "Timestamp" = none → processTelegram tel = ([], none)) ∧
    (∀ ts : String, lookupA output "Timestamp" = some (.str ts) →
        ratesIncomplete output = true →
        processTelegram tel =
          ([("data/" ++ String.mk (ts.data.take 6) ++ ".csv", output)], none)) := by
  have hpt : processTelegram tel = aggregate output := by
    unfold processTelegram
    rw [hcrc]
    show processValid tel = _
    unfold processValid
    rw [hout]
  constructor
  · intro hts
    rw [hpt]
    unfold aggregate
    rw [hts]
  · intro ts hts hrates
    rw [hpt]
    unfold aggregate
    rw [hts]
    show aggregateTs output ts = _
    unfold aggregateTs
    cases hu : to_unixtime ts with
    | error e => rfl
    | ok t =>
        show (match lookupA output rate1ConsKey, lookupA output rate2ConsKey,
                    lookupA output rate1ProdKey, lookupA output rate2ProdKey with
              | some (.dec c1), some (.dec c2), some (.dec p1), some (.dec p2) =>
                (([(fullPath ts, output),
                   (summedPath ts, [("timestamp", PValue.int t),
                                    ("Total consumption", PValue.dec (Dec.add c1 c2)),
                                    ("Total production", PValue.dec (Dec.add p1 p2))])],
                  some (snapshotJson t (Dec.add c1 c2) (Dec.add p1 p2))) : Effects)
              | _, _, _, _ => ([(fullPath ts, output)], none)) = _
        split
        · rename_i c1 c2 p1 p2 heq1 heq2 heq3 heq4
          exfalso
          rw [ratesIncomplete, heq1, heq2, heq3, heq4] at hrates
          simp [isDecV] at hrates
        · rfl

/-- C4 witness: the Timestamp-less CRC-valid telegram writes and
publishes nothing; the rate-less one persists exactly the full-record
row and publishes nothing. -/
theorem c4_witness :
    processTelegram telC4a = ([], none) ∧
    processTelegram telC4 =
      ([("data/" ++ String.mk ("230615123045S".data.take 6) ++ ".csv",
         [("Timestamp", PValue.str "230615123045S")])], none) :=
  ⟨(c4_missing_fields telC4a [] (by decide) (by decide)).1 (by decide),
   (c4_missing_fields telC4 [("Timestamp", PValue.str "230615123045S")]
      (by decide) (by decide)).2 "230615123045S" (by decide) (by decide)⟩

/-- C9: every published snapshot string is exactly the JSON object
`{"ts":"<unix-seconds>","c":"<total-consumption>","p":"<total-production>"}`
(`snapshotJson`, all three values rendered as strings) built from the
record's converted Timestamp and the day+night rate sums; and a
`?live` request served before any publication answers 200 /
`application/json` with the initial empty `latest_data` rather than an
error. -/
theorem c9_snapshot_shape :
    (∀ (output : List (String × PValue))
       (rows : List (String × List (String × PValue))) (s : String),
        aggregate output = (rows, some s) →
        ∃ (ts : String) (t : Int) (c1 c2 p1 p2 : Dec),
          lookupA output "Timestamp" = some (.str ts) ∧
          to_unixtime ts = .ok t ∧
          lookupA output rate1ConsKey = some (.dec c1) ∧
          lookupA output rate2ConsKey = some (.dec c2) ∧
          lookupA output rate1ProdKey = some (.dec p1) ∧
          lookupA output rate2ProdKey = some (.dec p2) ∧
          s = snapshotJson t (Dec.add c1 c2) (Dec.add p1 p2)) ∧
    (∀ path : String, containsSub "?live".data path.data = true →
        doGET latest_data path = some (200, "application/json", "")) := by
  constructor
  · intro output rows s h
    unfold aggregate at h
    cases hts : lookupA output "Timestamp" with
    | none =>
        rw [hts] at h
        have h2 : (([], (none : Option String)) : Effects) = (rows, some s) := h
        exact Option.noConfusion (congrArg Prod.snd h2)
    | some v =>
        rw [hts] at h
        cases v with
        | dec d =>
            have h2 : (([], (none : Option String)) : Effects) = (rows, some s) := h
            exact Option.noConfusion (congrArg Prod.snd h2)
        | int n =>
            have h2 : (([], (none : Option String)) : Effects) = (rows, some s) := h
            exact Option.noConfusion (congrArg Prod.snd h2)
        | str ts =>
            have h2 : aggregateTs output ts = (rows, some s) := h
            unfold aggregateTs at h2
            cases hu : to_unixtime ts with
            | error e =>
                rw [hu] at h2
                exact Option.noConfusion (congrArg Prod.snd h2)
            | ok t =>
                rw [hu] at h2
                cases h1 : lookupA output rate1ConsKey with
                | none =>
                    rw [h1] at h2
                    exact Option.noConfusion (congrArg Prod.snd
                      (h2 : (([(fullPath ts, output)], (none : Option String)) : Effects) = (rows, some s)))
                | some v1 =>
                rw [h1] at h2
                cases v1 with
                | str a =>
                    exact Option.noConfusion (congrArg Prod.snd
                      (h2 : (([(fullPath ts, output)], (none : Option String)) : Effects) = (rows, some s)))
                | int a =>
                    exact Option.noConfusion (congrArg Prod.snd
                      (h2 : (([(fullPath ts, output)], (none : Option String)) : Effects) = (rows, some s)))
                | dec c1 =>
                cases h2' : lookupA output rate2ConsKey with
                | none =>
                    rw [h2'] at h2
                    exact Option.noConfusion (congrArg Prod.snd
                      (h2 : (([(fullPath ts, output)], (none : Option String)) : Effects) = (rows, some s)))
                | some v2 =>
                rw [h2'] at h2
                cases v2 with
                | str a =>
                    exact Option.noConfusion (congrArg Prod.snd
                      (h2 : (([(fullPath ts, output)], (none : Option String)) : Effects) = (rows, some s)))
                | int a =>
                    exact Option.noConfusion (congrArg Prod.snd
                      (h2 : (([(fullPath ts, output)], (none : Option String)) : Effects) = (rows, some s)))
                | dec c2 =>
                cases h3 : lookupA output rate1ProdKey with
                | none =>
                    rw [h3] at h2
                    exact Option.noConfusion (congrArg Prod.snd
                      (h2 : (([(fullPath ts, output)], (none : Option String)) : Effects) = (rows, some s)))
                | some v3 =>
                rw [h3] at h2
                cases v3 with
                | str a =>
                    exact Option.noConfusion (congrArg Prod.snd
                      (h2 : (([(fullPath ts, output)], (none : Option String)) : Effects) = (rows, some s)))
                | int a =>
                    exact Option.noConfusion (congrArg Prod.snd
                      (h2 : (([(fullPath ts, output)], (none : Option String)) : Effects) = (rows, some s)))
                | dec p1 =>
                cases h4 : lookupA output rate2ProdKey with
                | none =>
                    rw [h4] at h2
                    exact Option.noConfusion (congrArg Prod.snd
                      (h2 : (([(fullPath ts, output)], (none : Option String)) : Effects) = (rows, some s)))
                | some v4 =>
                rw [h4] at h2
                cases v4 with
                | str a =>
                    exact Option.noConfusion (congrArg Prod.snd
                      (h2 : (([(fullPath ts, output)], (none : Option String)) : Effects) = (rows, some s)))
                | int a =>
                    exact Option.noConfusion (congrArg Prod.snd
                      (h2 : (([(fullPath ts, output)], (none : Option String)) : Effects) = (rows, some s)))
                | dec p2 =>
                have hs : some (snapshotJson t (Dec.add c1 c2) (Dec.add p1 p2)) = some s :=
                  congrArg Prod.snd h2
                injection hs with hs
                exact ⟨ts, t, c1, c2, p1, p2, rfl, hu, rfl, rfl, rfl, rfl, hs.symm⟩
  · intro path hp
    simp [doGET, hp, latest_data]

/-- C9 witness: the scenario record publishes exactly the JSON object
with the three stringified values, and a pre-publication `?live`
request gets 200 with the empty initial payload. -/
theorem c9_witness :
    (∃ (ts : String) (t : Int) (c1 c2 p1 p2 : Dec),
        lookupA outC9 "Timestamp" = some (.str ts) ∧
        to_unixtime ts = .ok t ∧
        lookupA outC9 rate1ConsKey = some (.dec c1) ∧
        lookupA outC9 rate2ConsKey = some (.dec c2) ∧
        lookupA outC9 rate1ProdKey = some (.dec p1) ∧
        lookupA outC9 rate2ProdKey = some (.dec p2) ∧
        "\x7b\"ts\":\"1686825045\",\"c\":\"123.456\",\"p\":\"0.0\"\x7d" =
          snapshotJson t (Dec.add c1 c2) (Dec.add p1 p2)) ∧
    doGET latest_data "/?live" = some (200, "application/json", "") :=
  ⟨c9_snapshot_shape.1 outC9
      [("data/230615.csv", outC9),
       ("data/230615_summed.csv",
        [("timestamp", PValue.int 1686825045),
         ("Total consumption", PValue.dec ⟨123456, 3⟩),
         ("Total production", PValue.dec ⟨0, 3⟩)])]
      "\x7b\"ts\":\"1686825045\",\"c\":\"123.456\",\"p\":\"0.0\"\x7d" (by decide),
   c9_snapshot_shape.2 "/?live" (by decide)⟩

/-- C7: for a registered code with at least one captured group, the
decoder branches: the timestamp code (`0-0:1.0.0`, the only registered
code containing `"1.0.0"`) keeps the raw captured string unparsed; any
other registered code (none contains the serial marker) splits the
captured group on `*`, parses the left part as a float — a failing
parse raising the line-level `ValueError`, never a silent coercion —
and uses the right part as the unit, empty when no `*` is present
(`getD 1 []`). -/
theorem c7_numeric_and_timestamp (line : String) (desc : String) (g0 : List Char)
    (grest : List (List Char))
    (hlk : lookupA obiscodes (String.mk ((pySplit line.data "(".data).headD [])) = some desc)
    (hgr : findGroups line.data = g0 :: grest) :
    (String.mk ((pySplit line.data "(".data).headD []) = "0-0:1.0.0" →
        parsetelegramline line =
          .ok (some ⟨desc, .str (String.mk (selectedGroup g0 grest)), ""⟩)) ∧
    (String.mk ((pySplit line.data "(".data).headD []) ≠ "0-0:1.0.0" →
        (pyFloat ((pySplit (selectedGroup g0 grest) "*".data).headD []) =
            .error (.valueError "float") →
          parsetelegramline line = .error (.valueError "float")) ∧
        (∀ q : Dec, pyFloat ((pySplit (selectedGroup g0 grest) "*".data).headD []) = .ok q →
          parsetelegramline line =
            .ok (some ⟨desc, .dec q,
                 String.mk ((pySplit (selectedGroup g0 grest) "*".data).getD 1 [])⟩))) := by
  have hmem := lookupA_mem _ _ _ hlk
  have hser := obiscodes_no_serial _ hmem
  have htsEq := obiscodes_ts _ hmem
  constructor
  · intro heq
    have hbeq : (String.mk ((pySplit line.data "(".data).headD []) == "0-0:1.0.0") = true := by
      rw [heq]
      exact beq_self_eq_true _
    simp only [parsetelegramline, hlk, hgr, hser, Bool.false_eq_true, if_false,
      htsEq, hbeq, Bool.not_true]
  · intro hne
    have hbeq : (String.mk ((pySplit line.data "(".data).headD []) == "0-0:1.0.0") = false :=
      beq_eq_false_iff_ne.mpr hne
    constructor
    · intro hfl
      simp only [parsetelegramline, hlk, hgr, hser, Bool.false_eq_true, if_false,
        htsEq, hbeq, Bool.not_false, if_true, hfl]
    · intro q hfl
      simp only [parsetelegramline, hlk, hgr, hser, Bool.false_eq_true, if_false,
        htsEq, hbeq, Bool.not_false, if_true, hfl]

/-- C7 witness: a rate line parses value and unit, the timestamp line
keeps its raw string, and a non-numeric value raises. -/
theorem c7_witness :
    parsetelegramline "1-0:1.8.1(123.456*kWh)" =
      .ok (some ⟨"Rate 1 (day) - total consumption", .dec ⟨123456, 3⟩, "kWh"⟩) ∧
    parsetelegramline "0-0:1.0.0(230615123045S)" =
      .ok (some ⟨"Timestamp", .str "230615123045S", ""⟩) ∧
    parsetelegramline "1-0:32.7.0(not-a-number*V)" = .error (.valueError "float") :=
  ⟨((c7_numeric_and_timestamp "1-0:1.8.1(123.456*kWh)"
        "Rate 1 (day) - total consumption" "123.456*kWh".data [] (by decide) (by decide)).2
      (by decide)).2 ⟨123456, 3⟩ (by decide),
   (c7_numeric_and_timestamp "0-0:1.0.0(230615123045S)"
        "Timestamp" "230615123045S".data [] (by decide) (by decide)).1 (by decide),
   ((c7_numeric_and_timestamp "1-0:32.7.0(not-a-number*V)"
        "L1 voltage" "not-a-number*V".data [] (by decide) (by decide)).2
      (by decide)).1 (by decide)⟩
